import Mathlib

/-!
# Verification of the MLC Calculator expression evaluator

Shallow embedding of `src/mlc_calculator/__init__.py` (class `Calculator`):
the tokenizer/driving loop `expression_parse`, the priority function
`get_priority`, the stack step `calculate`, the formatter `format_result`
and the entry point `solve`.

Modelling conventions:
* Python floats are modelled as exact rationals (`ℚ`).  Every concrete
  expression exercised by the theorems below only performs arithmetic that
  is exact in double precision, so the model and the Python runtime agree
  on those inputs.  In particular the numeric literal `0.0000000001` parses
  to the same value as the threshold constant `1e-10` in the source on both
  sides, so the strict comparison `abs(b) < 1e-10` has the same verdict.
* The transcendental entries of the function table (`math.sin`, …) are not
  representable exactly; they are abstracted as a `Host` parameter that is
  threaded through the evaluator and only consulted when a function token
  is actually applied.  Likewise `a ** b` for an exponent that is not a
  non-negative integer is delegated to the host parameter.
* Python exceptions are modelled by `Except Err`.  `Err.indexError` stands
  for a raw `IndexError` (`list.pop` from an empty list, or an
  out-of-range `op[3]`), which the source does **not** convert to
  `ValueError`; every other constructor corresponds to a `ValueError`
  raised (or re-raised) by the source, see `Err.isValueError`.
* `Char.isDigit`/`Char.isAlpha` model Python's `str.isdigit`/`str.isalpha`
  on the ASCII inputs the claims are about.
-/

namespace MLC

/-- The exceptions that can escape `Calculator.solve`.  All constructors
except `indexError` model a Python `ValueError`; `indexError` models a raw
`IndexError` from popping an empty list (or indexing `op[3]` out of
range). -/
inductive Err where
  /-- `ValueError(f"运算符{op}缺少足够参数")` — operator missing operands. -/
  | missingOperands (op : String)
  /-- `ValueError("除以零")` — divide by zero. -/
  | divideByZero
  /-- `ValueError("对0取余")` — modulo by zero. -/
  | moduloByZero
  /-- `ValueError(f"无效的运算: {op}")` — invalid operation. -/
  | invalidOp (op : String)
  /-- `ValueError("括号不匹配")` — mismatched parentheses. -/
  | parenMismatch
  /-- `ValueError(f"未知的函数或单位: {name}")` — unknown function or unit. -/
  | unknownIdent (name : String)
  /-- `ValueError(f"非法字符: {c}")` — illegal character. -/
  | illegalChar (c : Char)
  /-- `ValueError("数字多余")` — leftover operands. -/
  | extraNumbers
  /-- `ValueError` raised by `float(number)` on a malformed literal. -/
  | badFloatLit (s : String)
  /-- A raw `IndexError` (stack underflow / out-of-range index), **not** a
  `ValueError`: it escapes the `except ValueError` handler of the host. -/
  | indexError
deriving DecidableEq, Repr

/-- Which `Err` values model a Python `ValueError` (as opposed to a raw
`IndexError`). -/
def Err.isValueError : Err → Bool
  | .indexError => false
  | _ => true

/-- Host parameters for the operations whose exact real semantics cannot be
reproduced on `ℚ`: the bodies of the function-table entries (`math.sin`,
`math.log`, …, which may raise, e.g. `math domain error`), and `a ** b`
for exponents that are not non-negative integers. -/
structure Host where
  apply : String → ℚ → Except Err ℚ
  powExt : ℚ → ℚ → Except Err ℚ

/-- A trivial host instantiation used for concrete witnesses; the concrete
expressions evaluated with it never consult the host. -/
def H0 : Host := ⟨fun _ _ => .ok 0, fun _ _ => .ok 0⟩

/-- Keys of `self.functions` (line 8-27 of the source), in source order. -/
def functionNames : List String :=
  ["sin", "cos", "tan", "asin", "acos", "atan", "sinh", "cosh", "tanh",
   "log", "exp", "sqrt", "abs", "ceil", "floor", "round", "radians", "degrees"]

/-- `self.operator` (line 28-35): operator symbol to precedence. -/
def opTable : List (String × ℕ) :=
  [("+", 1), ("-", 1), ("*", 2), ("/", 2), ("%", 2), ("^", 3)]

/-- The six operator symbols, as one-character strings. -/
def opStrings : List String := ["+", "-", "*", "/", "%", "^"]

/-- The six operator symbols, as characters (for the scanner's
`char in self.operator` test). -/
def opChars : List Char := ['+', '-', '*', '/', '%', '^']

/-- `self.unit` (line 36-57): unit suffix to multiplicative scale factor. -/
def unitTable : List (String × ℚ) :=
  [("k", 1000), ("m", 1000000), ("g", 1000000000), ("t", 1000000000000),
   ("p", 1000000000000000),
   ("ulv", 8), ("lv", 32), ("mv", 128), ("hv", 512), ("ev", 2048),
   ("iv", 8192), ("luv", 32768), ("zpm", 131072), ("uv", 524288),
   ("uhv", 2097152), ("uev", 8388608), ("uiv", 33554432),
   ("uxv", 134217728), ("opv", 536870912), ("max", 2147483648)]

/-- Keys of `self.unit`. -/
def unitNames : List String := unitTable.map Prod.fst

/-- `'max' in op` — substring containment on character lists. -/
def listContainsSub (pat : List Char) : List Char → Bool
  | [] => pat.isEmpty
  | c :: rest => pat.isPrefixOf (c :: rest) || listContainsSub pat rest

/-- Python's `'max' in s`. -/
def containsMax (s : String) : Bool := listContainsSub ['m', 'a', 'x'] s.toList

/-- `Calculator.get_priority` (line 59-67). -/
def get_priority (op : String) : ℕ :=
  match opTable.lookup op with
  | some p => p
  | none =>
    if op = "(" then 0
    else if (unitTable.lookup op).isSome then 4
    else 5

/-- Python's float `%`: the remainder has the sign of the divisor,
`a - b * floor(a / b)`. -/
def pyMod (a b : ℚ) : ℚ := a - b * ⌊a / b⌋

/-- `a ** b` on floats: exact when the exponent is a non-negative integer
(the only case the concrete expressions below exercise); all other
exponents are delegated to the host parameter. -/
def powApply (H : Host) (a b : ℚ) : Except Err ℚ :=
  if b.den = 1 ∧ 0 ≤ b.num then .ok (a ^ b.num.toNat)
  else H.powExt a b

/-- `Calculator.calculate` (line 69-110): pop one pending operation from the
operator stack and resolve it against the number stack.  Stacks grow at the
head (Python appends/pops at the end of the list).  Note which pops are
guarded: only the two pops of the binary-operator branch sit inside a
`try`/bare-`except` that re-raises `ValueError`; the pops of the function,
unit and MAX-family branches, and the `op[3]` index, raise a raw
`IndexError` (`Err.indexError`). -/
def calculate (H : Host) (ns : List ℚ) (os : List String) :
    Except Err (List ℚ × List String) :=
  match os with
  | [] => .error .indexError
  | op :: rest =>
    if op ∈ functionNames then
      match ns with
      | [] => .error .indexError
      | arg :: ns' =>
        match H.apply op arg with
        | .error e => .error e
        | .ok num => .ok (num :: ns', rest)
    else
      match opTable.lookup op with
      | some _ =>
        match ns with
        | b :: a :: ns' =>
          if op = "+" then .ok ((a + b) :: ns', rest)
          else if op = "-" then .ok ((a - b) :: ns', rest)
          else if op = "*" then .ok ((a * b) :: ns', rest)
          else if op = "/" then
            if |b| < 1 / 10 ^ 10 then .error .divideByZero
            else .ok ((a / b) :: ns', rest)
          else if op = "%" then
            if |b| < 1 / 10 ^ 10 then .error .moduloByZero
            else .ok (pyMod a b :: ns', rest)
          else -- op = "^": the operator table has exactly the six symbols
            match powApply H a b with
            | .error e => .error e
            | .ok r => .ok (r :: ns', rest)
        | _ => .error (.missingOperands op)
      | none =>
        if op = "(" then .ok (ns, op :: rest)
        else
          match unitTable.lookup op with
          | some v =>
            match ns with
            | [] => .error .indexError
            | num :: ns' => .ok ((num * v) :: ns', rest)
          | none =>
            if containsMax op then
              match ns with
              | [] => .error .indexError
              | num :: ns' =>
                match op.toList[3]? with
                | none => .error .indexError
                | some c =>
                  .ok ((num * 2147483648 *
                        (4 : ℚ) ^ ((c.toNat : ℤ) - 97 + 1)) :: ns', rest)
            else .error (.invalidOp op)

/-- The `)` handler (line 121-126): repeatedly apply `calculate` while the
top of the operator stack is not `(`; an empty stack is a mismatched
parenthesis; otherwise the `(` itself is popped and discarded.  The
recursion is on the tail of the operator stack: when the top is not `(`,
`calculate` returns exactly that tail as its operator stack (proved in
`calculate_pops_one` below), so the two recursions coincide. -/
def drainRParen (H : Host) (ns : List ℚ) : List String → Except Err (List ℚ × List String)
  | [] => .error .parenMismatch
  | op :: rest =>
    if op = "(" then .ok (ns, rest)
    else
      match calculate H ns (op :: rest) with
      | .error e => .error e
      | .ok (ns', _) => drainRParen H ns' rest

/-- The operator flush loop (line 147-154): while the pending top has
strictly greater priority, or equal priority and the incoming token is not
`^`, apply it.  Same recursion note as for `drainRParen`; the guard keeps a
`(` top in place because its priority 0 is below every operator's. -/
def flushOps (H : Host) (c : String) (ns : List ℚ) : List String → Except Err (List ℚ × List String)
  | [] => .ok (ns, [])
  | op :: rest =>
    if get_priority c < get_priority op ∨
        (get_priority c = get_priority op ∧ c ≠ "^") then
      match calculate H ns (op :: rest) with
      | .error e => .error e
      | .ok (ns', _) => flushOps H c ns' rest
    else .ok (ns, op :: rest)

/-- The end-of-input drain (line 159-162): apply every pending operation; a
remaining `(` is a mismatched parenthesis. -/
def drainAll (H : Host) (ns : List ℚ) : List String → Except Err (List ℚ)
  | [] => .ok ns
  | op :: rest =>
    if op = "(" then .error .parenMismatch
    else
      match calculate H ns (op :: rest) with
      | .error e => .error e
      | .ok (ns', _) => drainAll H ns' rest

/-- Digit-run predicate of the numeric-literal scanner (line 129). -/
def numChar (c : Char) : Bool := c.isDigit || c = '.'

/-- Value of a digit run. -/
def digitsVal (cs : List Char) : ℕ :=
  cs.foldl (fun acc c => acc * 10 + (c.toNat - 48)) 0

/-- Python's `float(number)` on a string made of digits and dots that starts
with a digit: at most one dot is allowed; the value is the integer part
plus the fraction part scaled by its length. -/
def parseNum (cs : List Char) : Option ℚ :=
  if cs.count '.' > 1 then none
  else
    let intPart := cs.takeWhile (fun c => c ≠ '.')
    match cs.dropWhile (fun c => c ≠ '.') with
    | [] => some (digitsVal intPart)
    | _ :: frac =>
      some ((digitsVal intPart : ℚ) + (digitsVal frac : ℚ) / 10 ^ frac.length)

/-- The scanning loop of `Calculator.expression_parse` (line 117-158),
walking the character list left to right with the two stacks as explicit
state.  Branch order follows the source: `(`, `)`, digit, alpha, operator,
illegal character.  The `fuel` argument only makes the recursion
structural: every iteration consumes at least one character, so with the
`cs.length + 1` supplied by `expression_parse` the exhaustion branch is
unreachable (`c9_scanner_terminates` proves the result does not depend on
the fuel as long as it exceeds the input length). -/
def parseChars (H : Host) (fuel : ℕ) (cs : List Char) (ns : List ℚ) (os : List String) :
    Except Err (List ℚ × List String) :=
  match fuel, cs with
  | _, [] => .ok (ns, os)
  | 0, _ :: _ => .error .indexError
  | fuel + 1, c :: rest =>
    if c = '(' then parseChars H fuel rest ns ("(" :: os)
    else if c = ')' then
      match drainRParen H ns os with
      | .error e => .error e
      | .ok (ns', os') => parseChars H fuel rest ns' os'
    else if c.isDigit then
      let tok := c :: rest.takeWhile numChar
      match parseNum tok with
      | none => .error (.badFloatLit (String.mk tok))
      | some q => parseChars H fuel (rest.dropWhile numChar) (q :: ns) os
    else if c.isAlpha then
      let name := String.mk ((c :: rest.takeWhile Char.isAlpha).map Char.toLower)
      if name ∈ functionNames then
        parseChars H fuel (rest.dropWhile Char.isAlpha) ns (name :: os)
      else if name ∈ unitNames || containsMax name then
        parseChars H fuel (rest.dropWhile Char.isAlpha) ns (name :: os)
      else .error (.unknownIdent name)
    else if c ∈ opChars then
      match flushOps H (String.singleton c) ns os with
      | .error e => .error e
      | .ok (ns', os') => parseChars H fuel rest ns' (String.singleton c :: os')
    else .error (.illegalChar c)

/-- `Calculator.expression_parse` (line 112-166): scan, drain the pending
operations, pop the result (an `IndexError` when the number stack is empty,
e.g. on the empty expression), and reject leftover operands. -/
def expression_parse (H : Host) (expr : String) : Except Err ℚ :=
  match parseChars H (expr.toList.length + 1) expr.toList [] [] with
  | .error e => .error e
  | .ok (ns, os) =>
    match drainAll H ns os with
    | .error e => .error e
    | .ok ns' =>
      match ns' with
      | [] => .error .indexError
      | r :: restNs => if restNs = [] then .ok r else .error .extraNumbers

/-- Python's `round` on floats: round half to even. -/
def pyRound (q : ℚ) : ℤ :=
  let f := ⌊q⌋
  if q - f < 1 / 2 then f
  else if 1 / 2 < q - f then f + 1
  else if f % 2 = 0 then f else f + 1

/-- Remove every trailing occurrence of `ch` (Python's `str.rstrip`). -/
def rstrip (ch : Char) (s : String) : String :=
  String.mk ((s.toList.reverse.dropWhile (fun c => c = ch)).reverse)

/-- Left-pad a string with `'0'` up to `n` characters. -/
def padZeros (n : ℕ) (s : String) : String :=
  String.mk (List.replicate (n - s.length) '0') ++ s

/-- Python's `f"{value:.10f}"`: the value rounded (half to even) at ten
decimal places, rendered with an explicit sign, integer part, dot, and a
ten-digit fraction part. -/
def fixed10 (v : ℚ) : String :=
  let m := pyRound (v * 10 ^ 10)
  (if v < 0 then "-" else "") ++ toString (m.natAbs / 10 ^ 10) ++ "." ++
    padZeros 10 (toString (m.natAbs % 10 ^ 10))

/-- `Calculator.format_result` (line 168-175). -/
def format_result (v : ℚ) : String :=
  if v = 0 then "0"
  else if |v - (pyRound v : ℚ)| < 1 / 10 ^ 10 then toString (pyRound v)
  else rstrip '.' (rstrip '0' (fixed10 v))

/-- The value a parse can produce, as classified by `Calculator.solve`
(line 179-182): a finite float (an exact rational in this model), or one of
the special values `inf`, `-inf`, `nan`.  The exact-arithmetic model never
overflows to the special values, but the classification stage of `solve`
is embedded faithfully on all four cases. -/
inductive FloatVal where
  | fin (q : ℚ)
  | inf
  | ninf
  | nan
deriving DecidableEq, Repr

/-- Lines 179-183 of `Calculator.solve`: infinities and NaN short-circuit
to fixed strings, finite values go through `format_result`. -/
def solveResult : FloatVal → String
  | .inf => "Inf"
  | .ninf => "-Inf"
  | .nan => "Nan"
  | .fin q => format_result q

/-- `expression.replace(" ", "")` of line 178. -/
def removeSpaces (s : String) : String :=
  String.mk (s.toList.filter (fun c => c ≠ ' '))

/-- `Calculator.solve` (line 177-183). -/
def solve (H : Host) (expression : String) : Except Err String :=
  match expression_parse H (removeSpaces expression) with
  | .error e => .error e
  | .ok r => .ok (solveResult (.fin r))

/-! ## Theorems for the claims -/

/-- C2: standard precedence and associativity on well-formed expressions:
`solve "2+3*4" = "14"`, `solve "(2+3)*4" = "20"`, and the power operator is
right-associative, `solve "2^3^2" = "512"` (that is `2 ^ (3 ^ 2)`), not
`"64"`. -/
theorem c2_precedence_assoc (H : Host) :
    solve H "2+3*4" = .ok "14" ∧ solve H "(2+3)*4" = .ok "20" ∧
    solve H "2^3^2" = .ok "512" := by
  refine ⟨?_, ?_, ?_⟩ <;> with_unfolding_all rfl

/-- C2 witness: the theorem instantiated at the trivial host. -/
theorem c2_witness : solve H0 "2+3*4" = .ok "14" :=
  (c2_precedence_assoc H0).1

/-- C6: a unit suffix multiplies the immediately preceding value by its
table scale factor — `"2k" = "2000"`, `"1m" = "1000000"`, `"1lv" = "32"`,
`"1max" = "2147483648"` — and a MAX-family token multiplies by
`2147483648 * 4 ^ (letterIndex + 1)`, so `"1maxa" = "8589934592"`.  The
last conjunct is the general step: for any table entry `(u, v)`,
`calculate` on the unit token `u` multiplies the top of the number stack
by `v`. -/
theorem c6_units (H : Host) :
    solve H "2k" = .ok "2000" ∧ solve H "1m" = .ok "1000000" ∧
    solve H "1lv" = .ok "32" ∧ solve H "1max" = .ok "2147483648" ∧
    solve H "1maxa" = .ok "8589934592" ∧
    (∀ u v num ns os, (u, v) ∈ unitTable →
      calculate H (num :: ns) (u :: os) = .ok ((num * v) :: ns, os)) := by
  refine ⟨?_, ?_, ?_, ?_, ?_, ?_⟩
  iterate 5 with_unfolding_all rfl
  intro u v num ns os h
  fin_cases h <;> rfl

/-- C6 witness: the general unit step applied to the entry `("k", 1000)`
with `2` on the number stack. -/
theorem c6_witness :
    ("k", (1000 : ℚ)) ∈ unitTable ∧
    calculate H0 [(2 : ℚ)] ["k"] = .ok ([2000], []) := by
  refine ⟨by simp [unitTable], ?_⟩
  have h := (c6_units H0).2.2.2.2.2 "k" 1000 2 [] [] (by simp [unitTable])
  with_unfolding_all exact h

/-- C7: a `(` on the operator stack is only removed by a matching `)` —
the operator flush loop leaves a `(` top untouched, the end-of-input drain
fails on it, and only the `)` handler pops it — and both `"(1+2"` and
`"1+2)"` fail with the mismatched-parenthesis error. -/
theorem c7_paren_invariant (H : Host) :
    solve H "(1+2" = .error .parenMismatch ∧
    solve H "1+2)" = .error .parenMismatch ∧
    (∀ c ns os, c ∈ opStrings →
      flushOps H c ns ("(" :: os) = .ok (ns, "(" :: os)) ∧
    (∀ ns os, drainAll H ns ("(" :: os) = .error .parenMismatch) ∧
    (∀ ns os, drainRParen H ns ("(" :: os) = .ok (ns, os)) := by
  refine ⟨?_, ?_, ?_, fun ns os => rfl, fun ns os => rfl⟩
  · with_unfolding_all rfl
  · with_unfolding_all rfl
  intro c ns os h
  simp only [opStrings, List.mem_cons, List.not_mem_nil, or_false] at h
  rcases h with rfl | rfl | rfl | rfl | rfl | rfl <;> rfl

/-- C7 witness: the flush loop stops at a `(` top for the `+` token. -/
theorem c7_witness :
    ("+" : String) ∈ opStrings ∧ flushOps H0 "+" [] ["("] = .ok ([], ["("]) :=
  ⟨by decide, (c7_paren_invariant H0).2.2.1 "+" [] [] (by decide)⟩

/-- C10: no unary operators exist — a binary operator with fewer than two
values on the number stack fails with the insufficient-operands error, and
in particular `solve "-1"` fails with that error for `-` instead of
evaluating to the negated value. -/
theorem c10_no_unary (H : Host) :
    solve H "-1" = .error (.missingOperands "-") ∧
    (∀ op ns os, op ∈ opStrings → ns.length < 2 →
      calculate H ns (op :: os) = .error (.missingOperands op)) := by
  refine ⟨?_, ?_⟩
  · with_unfolding_all rfl
  intro op ns os hop hlen
  simp only [opStrings, List.mem_cons, List.not_mem_nil, or_false] at hop
  rcases ns with _ | ⟨b, _ | ⟨a, t⟩⟩
  · rcases hop with rfl | rfl | rfl | rfl | rfl | rfl <;> rfl
  · rcases hop with rfl | rfl | rfl | rfl | rfl | rfl <;> rfl
  · simp only [List.length_cons] at hlen
    omega

/-- The operator-stack output of `calculate` on a non-parenthesis token is
exactly the tail of its input: one pending operation is consumed. -/
theorem calculate_ops_tail (H : Host) (ns : List ℚ) (op : String)
    (rest : List String) (ns' : List ℚ) (os' : List String)
    (hop : op ≠ "(") (h : calculate H ns (op :: rest) = .ok (ns', os')) :
    os' = rest := by
  simp only [calculate] at h
  repeat' split at h
  all_goals simp_all

/-- Scanner fuel is irrelevant above the input length: every iteration
consumes at least one character. -/
theorem parseChars_fuel (H : Host) :
    ∀ f₁ f₂ cs ns os, cs.length < f₁ → cs.length < f₂ →
      parseChars H f₁ cs ns os = parseChars H f₂ cs ns os := by
  intro f₁
  induction f₁ with
  | zero => intro f₂ cs ns os h1; omega
  | succ f ih =>
    intro f₂ cs ns os h1 h2
    match cs with
    | [] => simp only [parseChars]
    | c :: rest =>
      match f₂ with
      | 0 => omega
      | g + 1 =>
        simp only [List.length_cons, Nat.succ_lt_succ_iff] at h1 h2
        have hdn : (rest.dropWhile numChar).length < f :=
          Nat.lt_of_le_of_lt (List.dropWhile_suffix _).sublist.length_le h1
        have hdn' : (rest.dropWhile numChar).length < g :=
          Nat.lt_of_le_of_lt (List.dropWhile_suffix _).sublist.length_le h2
        have hda : (rest.dropWhile Char.isAlpha).length < f :=
          Nat.lt_of_le_of_lt (List.dropWhile_suffix _).sublist.length_le h1
        have hda' : (rest.dropWhile Char.isAlpha).length < g :=
          Nat.lt_of_le_of_lt (List.dropWhile_suffix _).sublist.length_le h2
        simp only [parseChars]
        repeat' split
        all_goals first
          | rfl
          | exact ih g _ _ _ h1 h2
          | exact ih g _ _ _ hdn hdn'
          | exact ih g _ _ _ hda hda'

/-- C9: the evaluation loop terminates on every input.  First conjunct:
`calculate` on a non-`(` token returns the tail of the operator stack —
every flush-loop step removes exactly one pending token, so the inner
loops (`drainRParen`, `flushOps`, `drainAll`, defined by recursion on the
operator stack) are total.  Second conjunct: the defensive `(` branch of
`calculate` merely re-pushes (the loop guards in `expression_parse` never
invoke it).  Third conjunct: the scanner advances on every iteration, so
its result is independent of any fuel bound exceeding the input length —
`expression_parse`, which supplies `length + 1`, terminates on every
string. -/
theorem c9_termination :
    (∀ (H : Host) ns op rest ns' os', op ≠ "(" →
      calculate H ns (op :: rest) = .ok (ns', os') → os' = rest) ∧
    (∀ (H : Host) ns rest, calculate H ns ("(" :: rest) = .ok (ns, "(" :: rest)) ∧
    (∀ (H : Host) f₁ f₂ cs ns os, cs.length < f₁ → cs.length < f₂ →
      parseChars H f₁ cs ns os = parseChars H f₂ cs ns os) :=
  ⟨fun H ns op rest ns' os' hop h => calculate_ops_tail H ns op rest ns' os' hop h,
   fun _ _ _ => rfl,
   fun H => parseChars_fuel H⟩

/-- C9 witness: the pop-one property at the unit token `k`, and fuel
irrelevance at a concrete input. -/
theorem c9_witness :
    (("k" : String) ≠ "(") ∧
    calculate H0 [(5 : ℚ)] ["k"] = .ok ([5000], []) ∧
    (([] : List String) = []) ∧
    ((2 : ℕ) < 3 ∧ (2 : ℕ) < 9) ∧
    parseChars H0 3 ['4', '2'] [] [] = parseChars H0 9 ['4', '2'] [] [] := by
  refine ⟨by decide, by with_unfolding_all rfl, ?_, ⟨by decide, by decide⟩, ?_⟩
  · exact c9_termination.1 H0 [5] "k" [] [5000] []
      (by decide) (by with_unfolding_all rfl)
  · exact c9_termination.2.2 H0 3 9 ['4', '2'] [] [] (by decide) (by decide)

/-- C1 counterexample: the empty expression does not surface as a typed
`ValueError` — `expression_parse` pops the result from an empty number
stack, a raw `IndexError` that escapes `solve` uncaught. -/
theorem c1_counterexample :
    solve H0 "" = .error .indexError ∧ Err.isValueError .indexError = false :=
  ⟨rfl, rfl⟩

/-- C1 amended: `solve` either returns a formatted string or fails with a
typed `ValueError` for tokenizer errors and for binary operators with
missing operands — but the empty expression, and a function or unit token
applied to an empty value stack, raise a raw `IndexError` (stack
underflow) that is not a `ValueError` and escapes `solve` uncaught. -/
theorem c1_amended (H : Host) :
    solve H "" = .error .indexError ∧
    solve H "sin" = .error .indexError ∧
    solve H "k" = .error .indexError ∧
    solve H "1+" = .error (.missingOperands "+") ∧
    solve H "1..2" = .error (.badFloatLit "1..2") ∧
    solve H "2+3" = .ok "5" ∧
    Err.isValueError .indexError = false ∧
    Err.isValueError (.missingOperands "+") = true ∧
    Err.isValueError (.badFloatLit "1..2") = true := by
  refine ⟨?_, ?_, ?_, ?_, ?_, ?_, rfl, rfl, rfl⟩ <;> with_unfolding_all rfl

/-- C1 witness: the amended behaviour at the trivial host: a function
token on an empty value stack is a raw stack underflow. -/
theorem c1_witness : solve H0 "sin" = .error .indexError :=
  (c1_amended H0).2.1

/-- C3 counterexample: `solve "1/0.0000000001"` does not fail — the
divisor is exactly the `1e-10` threshold, the strict comparison
`abs(b) < 1e-10` is false, and the division yields `"10000000000"`. -/
theorem c3_counterexample : solve H0 "1/0.0000000001" = .ok "10000000000" := by
  with_unfolding_all rfl

/-- C3 amended: `/` (resp. `%`) fails with the divide-by-zero
(resp. modulo-by-zero) error exactly when `|b| < 1e-10` strictly, and
otherwise returns `a / b` (resp. the floating remainder); a divisor of
`0.0000000001` equals the threshold exactly and therefore does not fail,
returning `"10000000000"`, and a divisor of `0.001` does not fail. -/
theorem c3_amended (H : Host) :
    (∀ a b ns os, calculate H (b :: a :: ns) ("/" :: os) =
      if |b| < 1 / 10 ^ 10 then .error .divideByZero
      else .ok ((a / b) :: ns, os)) ∧
    (∀ a b ns os, calculate H (b :: a :: ns) ("%" :: os) =
      if |b| < 1 / 10 ^ 10 then .error .moduloByZero
      else .ok (pyMod a b :: ns, os)) ∧
    solve H "1/0.0000000001" = .ok "10000000000" ∧
    solve H "1/0.001" = .ok "1000" := by
  refine ⟨fun a b ns os => rfl, fun a b ns os => rfl, ?_, ?_⟩ <;>
    with_unfolding_all rfl

/-- C3 witness: the amended behaviour at the trivial host: a divisor of
`0.001` does not fail. -/
theorem c3_witness : solve H0 "1/0.001" = .ok "1000" :=
  (c3_amended H0).2.2.2

/-- C4 counterexample: a function name does not get priority 4 — the
priority function never consults the function table, so `"sin"` falls
through to the default rank 5. -/
theorem c4_counterexample : get_priority "sin" = 5 ∧ get_priority "sin" ≠ 4 := by
  decide

/-- C4 amended: `get_priority` returns 1 for `+` and `-`, 2 for `*`, `/`
and `%`, 3 for `^`, 0 for `(`, 4 for every unit name, and 5 for every
function name and every other token (function names are not special-cased:
they take the default rank 5, not 4). -/
theorem c4_amended :
    get_priority "+" = 1 ∧ get_priority "-" = 1 ∧ get_priority "*" = 2 ∧
    get_priority "/" = 2 ∧ get_priority "%" = 2 ∧ get_priority "^" = 3 ∧
    get_priority "(" = 0 ∧
    (∀ u ∈ unitNames, get_priority u = 4) ∧
    (∀ f ∈ functionNames, get_priority f = 5) ∧
    get_priority ")" = 5 ∧ get_priority "foo" = 5 := by
  refine ⟨rfl, rfl, rfl, rfl, rfl, rfl, rfl, ?_, ?_, rfl, rfl⟩ <;> decide

/-- C4 witness: the amended priorities applied at the unit `"k"` and the
function `"sin"`. -/
theorem c4_witness :
    ("k" ∈ unitNames ∧ get_priority "k" = 4) ∧
    ("sin" ∈ functionNames ∧ get_priority "sin" = 5) :=
  ⟨⟨by decide, c4_amended.2.2.2.2.2.2.2.1 "k" (by decide)⟩,
   ⟨by decide, c4_amended.2.2.2.2.2.2.2.2.1 "sin" (by decide)⟩⟩

/-- C5 counterexample: the identifier `maxaa` is not a function name, not
a unit name, and not `max` followed by exactly one letter, yet
`solve "1maxaa"` succeeds: the tokenizer accepts any identifier containing
`max` as a substring, and `calculate` reads the exponent letter at index 3
ignoring everything after it. -/
theorem c5_counterexample : solve H0 "1maxaa" = .ok "8589934592" := by
  with_unfolding_all rfl

/-- C5 amended: an identifier is accepted only if it is a function-table
name, a unit-table name, or contains `max` as a substring anywhere (with
the exponent letter read from character index 3); any other identifier
fails with the unknown-function-or-unit error naming the offending text,
e.g. `solve "foo(1)"` and `solve "bar"`. -/
theorem c5_amended (H : Host) :
    solve H "foo(1)" = .error (.unknownIdent "foo") ∧
    solve H "bar" = .error (.unknownIdent "bar") ∧
    solve H "1maxaa" = .ok "8589934592" ∧
    solve H "1amax" = .ok "604462909807314587353088" ∧
    solve H "1max" = .ok "2147483648" := by
  refine ⟨?_, ?_, ?_, ?_, ?_⟩ <;> with_unfolding_all rfl

/-- C5 witness: the amended behaviour at the trivial host: an identifier
resolving to none of the three sources is an unknown-function-or-unit
error. -/
theorem c5_witness : solve H0 "foo(1)" = .error (.unknownIdent "foo") :=
  (c5_amended H0).1

/-- C8: `format_result` maps exact zero to `"0"`, any value within `1e-10`
of its nearest integer (`pyRound`) to that integer's decimal string, and
any other value to its fixed ten-decimal representation with trailing
zeros and a trailing decimal point stripped; the final classification of
`solve` maps positive infinity to `"Inf"`, negative infinity to `"-Inf"`
and NaN to `"Nan"`. -/
theorem c8_formatting :
    format_result 0 = "0" ∧
    (∀ v : ℚ, |v - (pyRound v : ℚ)| < 1 / 10 ^ 10 →
      format_result v = toString (pyRound v)) ∧
    (∀ v : ℚ, v ≠ 0 → ¬ |v - (pyRound v : ℚ)| < 1 / 10 ^ 10 →
      format_result v = rstrip '.' (rstrip '0' (fixed10 v))) ∧
    solveResult .inf = "Inf" ∧ solveResult .ninf = "-Inf" ∧
    solveResult .nan = "Nan" ∧
    format_result (1 / 3) = "0.3333333333" ∧ format_result (3 / 2) = "1.5" := by
  refine ⟨rfl, ?_, ?_, rfl, rfl, rfl, ?_, ?_⟩
  · intro v h
    simp only [format_result]
    by_cases hv : v = 0
    · subst hv
      with_unfolding_all decide
    · rw [if_neg hv, if_pos h]
  · intro v hv h
    simp only [format_result]
    rw [if_neg hv, if_neg h]
  · with_unfolding_all rfl
  · with_unfolding_all rfl

/-- C8 witness: the near-integer branch at `5` and the fixed-decimal
branch at `3/2`. -/
theorem c8_witness :
    (|(5 : ℚ) - (pyRound (5 : ℚ) : ℚ)| < 1 / 10 ^ 10 ∧
      format_result (5 : ℚ) = toString (pyRound (5 : ℚ))) ∧
    (((3 : ℚ) / 2 ≠ 0) ∧ ¬ |(3 : ℚ) / 2 - (pyRound ((3 : ℚ) / 2) : ℚ)| < 1 / 10 ^ 10 ∧
      format_result ((3 : ℚ) / 2) = rstrip '.' (rstrip '0' (fixed10 ((3 : ℚ) / 2)))) :=
  ⟨⟨by with_unfolding_all decide,
    c8_formatting.2.1 5 (by with_unfolding_all decide)⟩,
   ⟨by with_unfolding_all decide, by with_unfolding_all decide,
    c8_formatting.2.2.1 (3 / 2) (by with_unfolding_all decide)
      (by with_unfolding_all decide)⟩⟩

/-- C10 witness: `-` with a single stack value fails with the typed
insufficient-operands error. -/
theorem c10_witness :
    ("-" : String) ∈ opStrings ∧ ([(1 : ℚ)].length < 2) ∧
    calculate H0 [(1 : ℚ)] ["-"] = .error (.missingOperands "-") :=
  ⟨by decide, by decide, (c10_no_unary H0).2 "-" [1] [] (by decide) (by decide)⟩

end MLC
